import Mathlib

/-!
Verification development for the c3ne build-script library (src/lib.rs).

The library is a configuration builder (struct C3FFI) that accumulates
compilation options, translates them into a c3c command-line invocation,
spawns the compiler and, on the happy path, prints two cargo linkage
directives.  The embedding below translates the Rust source into Lean:

* pure data (enums, the C3FFI struct, the accumulation methods) become
  plain Lean definitions;
* Rust PathBuf is a byte/char sequence that may or may not be valid UTF-8,
  modelled by an inductive with a valid-text constructor and an opaque
  non-text constructor; OsStr::to_str is modelled by an Option-valued
  conversion (None = the to_str().unwrap() panic in the source);
* std::env::var reads are modelled by an explicit environment record with
  optional OUT_DIR / TARGET values;
* Command::output() is modelled by an oracle value saying whether the
  spawn failed or the child completed with some exit code (the source
  ignores the code, and so does the model);
* Rust's target.split("-") on the one-character pattern "-" is modelled by
  a structural character-list split with the same semantics (empty input
  yields one empty field, separators at the ends yield empty fields);
* panics (slice indexing out of range, Option::unwrap) appear as the
  distinguished outcome `panicked`.
-/

/-- Model of `enum LinkingMode` from the source. -/
inductive LinkingMode where
  | Static : LinkingMode
  | Dynamic : LinkingMode
deriving DecidableEq

/-- Model of `enum OptimizationLevel` from the source. -/
inductive OptimizationLevel where
  | O0 : OptimizationLevel
  | O1 : OptimizationLevel
  | O2 : OptimizationLevel
  | O3 : OptimizationLevel
  | O4 : OptimizationLevel
  | O5 : OptimizationLevel
  | Os : OptimizationLevel
  | Oz : OptimizationLevel
deriving DecidableEq

/-- Model of `OptimizationLevel::to_str` from the source. -/
def OptimizationLevel.to_str : OptimizationLevel → String
  | .O0 => "O0"
  | .O1 => "O1"
  | .O2 => "O2"
  | .O3 => "O3"
  | .O4 => "O4"
  | .O5 => "O5"
  | .Os => "Os"
  | .Oz => "Oz"

/-- Model of `std::path::PathBuf`: either a path whose platform
representation is valid text (UTF-8), or one that is not (carrying its raw
bytes, so that distinct invalid paths stay distinguishable). -/
inductive PathBuf where
  | utf8 (s : String) : PathBuf
  | invalid (bytes : List Nat) : PathBuf
deriving DecidableEq

/-- Model of `path.as_os_str().to_str()`: `some` exactly on valid-text
paths.  The source calls `.unwrap()` on this, i.e. panics on `none`. -/
def pathToStr : PathBuf → Option String
  | .utf8 s => some s
  | .invalid _ => none

/-- Model of `struct C3FFI` from the source, field for field. -/
structure C3FFI where
  compiler : String
  linking_mode : LinkingMode
  optimization_level : OptimizationLevel
  debug_info : Bool
  files : List PathBuf
  features : List String
  args : List String
  environment_variables : List (String × String)
  linker_arguments : List String
  compiled_lib_dirs : List PathBuf
  compiled_libs : List PathBuf
  c3_lib_dirs : List PathBuf
  c3_libs : List PathBuf
deriving DecidableEq

/-- Model of `C3FFI::new`, with the default values of the source. -/
def C3FFI.new : C3FFI where
  compiler := "c3c"
  linking_mode := .Static
  optimization_level := .O0
  debug_info := true
  files := []
  features := []
  args := []
  environment_variables := []
  linker_arguments := []
  compiled_lib_dirs := []
  compiled_libs := []
  c3_lib_dirs := []
  c3_libs := []

/-- The accumulation pattern shared by every accumulation method of the
source: `if !collection.contains(&x) { collection.push(x) }`. -/
def addUnique {α : Type} [DecidableEq α] (xs : List α) (x : α) : List α :=
  if x ∈ xs then xs else xs ++ [x]

/-- Model of `C3FFI::compiler`. -/
def C3FFI.set_compiler (self : C3FFI) (compiler : String) : C3FFI :=
  { self with compiler := compiler }

/-- Model of `C3FFI::linking_mode` (the setter; named apart from the field). -/
def C3FFI.set_linking_mode (self : C3FFI) (linking_mode : LinkingMode) : C3FFI :=
  { self with linking_mode := linking_mode }

/-- Model of `C3FFI::optimization_level` (the setter). -/
def C3FFI.set_optimization_level (self : C3FFI) (optimization_level : OptimizationLevel) : C3FFI :=
  { self with optimization_level := optimization_level }

/-- Model of `C3FFI::debug_info` (the setter). -/
def C3FFI.set_debug_info (self : C3FFI) (debug_info : Bool) : C3FFI :=
  { self with debug_info := debug_info }

/-- Model of `C3FFI::file`.  The source additionally prints an
informational `cargo::rerun-if-changed` line inside the same
not-yet-contained branch; that print does not touch the configuration
state and is not modelled. -/
def C3FFI.file (self : C3FFI) (file : PathBuf) : C3FFI :=
  { self with files := addUnique self.files file }

/-- Model of `C3FFI::files` (iterates `file`). -/
def C3FFI.addFiles (self : C3FFI) (fs : List PathBuf) : C3FFI :=
  fs.foldl C3FFI.file self

/-- Model of `C3FFI::feature`. -/
def C3FFI.feature (self : C3FFI) (feature : String) : C3FFI :=
  { self with features := addUnique self.features feature }

/-- Model of `C3FFI::features` (iterates `feature`). -/
def C3FFI.addFeatures (self : C3FFI) (fs : List String) : C3FFI :=
  fs.foldl C3FFI.feature self

/-- Model of `C3FFI::arg`. -/
def C3FFI.arg (self : C3FFI) (arg : String) : C3FFI :=
  { self with args := addUnique self.args arg }

/-- Model of `C3FFI::args` (iterates `arg`). -/
def C3FFI.addArgs (self : C3FFI) (as' : List String) : C3FFI :=
  as'.foldl C3FFI.arg self

/-- Model of `C3FFI::linker_argument`. -/
def C3FFI.linker_argument (self : C3FFI) (linker_argument : String) : C3FFI :=
  { self with linker_arguments := addUnique self.linker_arguments linker_argument }

/-- Model of `C3FFI::linker_arguments` (iterates `linker_argument`). -/
def C3FFI.addLinkerArguments (self : C3FFI) (ls : List String) : C3FFI :=
  ls.foldl C3FFI.linker_argument self

/-- Model of `C3FFI::environment_variable`. -/
def C3FFI.environment_variable (self : C3FFI) (environment_variable : String × String) : C3FFI :=
  { self with environment_variables := addUnique self.environment_variables environment_variable }

/-- Model of `C3FFI::environment_variables` (iterates `environment_variable`). -/
def C3FFI.addEnvironmentVariables (self : C3FFI) (es : List (String × String)) : C3FFI :=
  es.foldl C3FFI.environment_variable self

/-- Model of `C3FFI::compiled_lib_dir`. -/
def C3FFI.compiled_lib_dir (self : C3FFI) (compiled_lib_dir : PathBuf) : C3FFI :=
  { self with compiled_lib_dirs := addUnique self.compiled_lib_dirs compiled_lib_dir }

/-- Model of `C3FFI::compiled_lib_dirs` (iterates `compiled_lib_dir`). -/
def C3FFI.addCompiledLibDirs (self : C3FFI) (ds : List PathBuf) : C3FFI :=
  ds.foldl C3FFI.compiled_lib_dir self

/-- Model of `C3FFI::compiled_lib`. -/
def C3FFI.compiled_lib (self : C3FFI) (compiled_lib : PathBuf) : C3FFI :=
  { self with compiled_libs := addUnique self.compiled_libs compiled_lib }

/-- Model of `C3FFI::compiled_libs` (iterates `compiled_lib`). -/
def C3FFI.addCompiledLibs (self : C3FFI) (ls : List PathBuf) : C3FFI :=
  ls.foldl C3FFI.compiled_lib self

/-- Model of `C3FFI::c3_lib_dir`. -/
def C3FFI.c3_lib_dir (self : C3FFI) (c3_lib_dir : PathBuf) : C3FFI :=
  { self with c3_lib_dirs := addUnique self.c3_lib_dirs c3_lib_dir }

/-- Model of `C3FFI::c3_lib_dirs` (iterates `c3_lib_dir`). -/
def C3FFI.addC3LibDirs (self : C3FFI) (ds : List PathBuf) : C3FFI :=
  ds.foldl C3FFI.c3_lib_dir self

/-- Model of `C3FFI::c3_lib`. -/
def C3FFI.c3_lib (self : C3FFI) (c3_lib : PathBuf) : C3FFI :=
  { self with c3_libs := addUnique self.c3_libs c3_lib }

/-- Model of `C3FFI::c3_libs` (iterates `c3_lib`). -/
def C3FFI.addC3Libs (self : C3FFI) (ls : List PathBuf) : C3FFI :=
  ls.foldl C3FFI.c3_lib self

/-- Every collection of the configuration is duplicate-free.  This holds
for `C3FFI.new` and is preserved by every accumulation method. -/
def C3FFI.WellFormed (c : C3FFI) : Prop :=
  c.files.Nodup ∧ c.features.Nodup ∧ c.args.Nodup ∧
  c.environment_variables.Nodup ∧ c.linker_arguments.Nodup ∧
  c.compiled_lib_dirs.Nodup ∧ c.compiled_libs.Nodup ∧
  c.c3_lib_dirs.Nodup ∧ c.c3_libs.Nodup

/-- ASCII lower-casing of a single character, as in Rust's
`eq_ignore_ascii_case` (only the range A-Z is affected). -/
def asciiLowerChar (c : Char) : Char :=
  if 'A' ≤ c ∧ c ≤ 'Z' then Char.ofNat (c.toNat + 32) else c

/-- Model of Rust's `str::eq_ignore_ascii_case` on character sequences. -/
def eqIgnoreAsciiCase (a b : List Char) : Bool :=
  a.map asciiLowerChar == b.map asciiLowerChar

/-- Model of Rust's `target.split("-")` for the one-character pattern used
by the source: split a character sequence at every separator occurrence,
keeping empty pieces ("" splits to one empty field, "a--b" to three). -/
def splitOnChar (sep : Char) : List Char → List (List Char)
  | [] => [[]]
  | c :: cs =>
    if c = sep then [] :: splitOnChar sep cs
    else
      match splitOnChar sep cs with
      | [] => [[c]]
      | r :: rs => (c :: r) :: rs

/-- Model of the target-triple normalization of `attempt_compilation`
(source lines 577-595): split the TARGET value on `-`; take the OS from
index 2 and the toolchain from index 3 when there are exactly 4 fields,
else from indices 1 and 2; architecture from index 0; rename
windows+gnu/gnullvm to mingw and x86_64 to x64, ASCII-case-insensitively;
produce "{os}-{architecture}".  An out-of-range field access is a panic in
the source and yields `none` here. -/
def normalizeTarget (target : String) : Option String := do
  let target_split := splitOnChar '-' target.data
  let where_os := if target_split.length == 4 then 2 else 1
  let architecture ← target_split[0]?
  let os ← target_split[where_os]?
  let toolchain ← target_split[where_os + 1]?
  let os :=
    if eqIgnoreAsciiCase os "windows".data &&
        (eqIgnoreAsciiCase toolchain "gnu".data || eqIgnoreAsciiCase toolchain "gnullvm".data) then
      "mingw".data
    else os
  let architecture :=
    if eqIgnoreAsciiCase architecture "x86_64".data then "x64".data else architecture
  pure (String.mk (os ++ '-' :: architecture))

/-- Token for the linking mode (source lines 569-572). -/
def linkCommand : LinkingMode → String
  | .Static => "static-lib"
  | .Dynamic => "dynamic-lib"

/-- Debug-info flag (source line 573): `-g` or `-g0`. -/
def debugFlagStr (debug_info : Bool) : String :=
  "-g" ++ (if debug_info then "" else "0")

/-- Optimization flag (source line 574): `-` followed by the level name. -/
def optFlagStr (o : OptimizationLevel) : String :=
  "-" ++ o.to_str

/-- Model of the argument-vector construction of `attempt_compilation`
(source lines 597-640): the fixed header pushes, then one loop per kind in
source order, each loop pushing its flag and the item.  The path loops
convert with `to_str().unwrap()`; a non-text path makes the whole
translation `none` (the panic). -/
def translateArgs (cfg : C3FFI) (cmd debugFlag optFlag outDir outName c3target : String) :
    Option (List String) := do
  let args : List String := [cmd, debugFlag, optFlag, "--output-dir", outDir, "-o", outName,
    "--target", c3target]
  let args := cfg.features.foldl (fun a f => a ++ ["-D", f]) args
  let args := cfg.linker_arguments.foldl (fun a z => a ++ ["-z", z]) args
  let args ← cfg.compiled_lib_dirs.foldlM
    (fun a d => (pathToStr d).map (fun s => a ++ ["-L", s])) args
  let args ← cfg.compiled_libs.foldlM
    (fun a d => (pathToStr d).map (fun s => a ++ ["-l", s])) args
  let args ← cfg.c3_lib_dirs.foldlM
    (fun a d => (pathToStr d).map (fun s => a ++ ["--libdir", s])) args
  let args ← cfg.c3_libs.foldlM
    (fun a d => (pathToStr d).map (fun s => a ++ ["--lib", s])) args
  let args ← cfg.files.foldlM
    (fun a d => (pathToStr d).map (fun s => a ++ [s])) args
  let args := cfg.args.foldl (fun a s => a ++ [s]) args
  pure args

/-- The flag computations of source lines 569-575 followed by the argument
construction: everything of `attempt_compilation` between the environment
reads and the subprocess spawn. -/
def renderInvocation (cfg : C3FFI) (name outDir c3target : String) : Option (List String) :=
  translateArgs cfg (linkCommand cfg.linking_mode) (debugFlagStr cfg.debug_info)
    (optFlagStr cfg.optimization_level) outDir ("lib" ++ name) c3target

/-- The build environment supplied by cargo: `var("OUT_DIR")` and
`var("TARGET")`, each possibly absent. -/
structure Env where
  out_dir : Option String
  target : Option String

/-- Oracle for `Command::output()`: either the spawn itself fails, or the
child process completes with some exit code.  The source never inspects
the exit code, and neither does the model. -/
inductive SpawnOutcome where
  | spawnFailure : SpawnOutcome
  | completed (exitCode : Nat) : SpawnOutcome

/-- The error values `attempt_compilation` can return (`Box<dyn Error>`):
a missing environment variable, or a spawn failure. -/
inductive ErrKind where
  | envVar (v : String) : ErrKind
  | spawn : ErrKind
deriving DecidableEq

/-- How a call to `attempt_compilation` ends: `Ok(())`, `Err(e)`, or a
panic (indexing out of range / `unwrap` on a non-text path). -/
inductive AttemptOutcome where
  | ok : AttemptOutcome
  | err (e : ErrKind) : AttemptOutcome
  | panicked : AttemptOutcome
deriving DecidableEq

/-- Everything observable about one call to `attempt_compilation`: the
configuration as left behind by the call (`&mut self` threading), whether
a subprocess spawn was attempted, the `cargo:` directives printed, and the
outcome. -/
structure AttemptResult where
  cfg' : C3FFI
  launched : Bool
  directives : List String
  outcome : AttemptOutcome
deriving DecidableEq

/-- Model of `C3FFI::attempt_compilation` (source lines 566-655), step for
step: read OUT_DIR (`?` on absence), compute the flag strings, read TARGET
(`?` on absence), normalize the target (panic on short splits), build the
argument vector (panic on non-text paths), spawn (`?` on spawn failure),
then print the two `cargo:` directives and return `Ok(())` — the exit
code of the child is never examined. -/
def attemptCompilation (cfg : C3FFI) (name : String) (env : Env) (spawn : SpawnOutcome) :
    AttemptResult :=
  match env.out_dir with
  | none => ⟨cfg, false, [], .err (.envVar "OUT_DIR")⟩
  | some out_dir =>
    match env.target with
    | none => ⟨cfg, false, [], .err (.envVar "TARGET")⟩
    | some target =>
      match normalizeTarget target with
      | none => ⟨cfg, false, [], .panicked⟩
      | some c3_target =>
        match renderInvocation cfg name out_dir c3_target with
        | none => ⟨cfg, false, [], .panicked⟩
        | some _ =>
          match spawn with
          | .spawnFailure => ⟨cfg, true, [], .err .spawn⟩
          | .completed _ =>
            ⟨cfg, true,
              ["cargo:rustc-link-search=native=" ++ out_dir,
               "cargo:rustc-link-lib=static=" ++ name], .ok⟩

/-- Model of `C3FFI::compile` (source lines 548-552): call
`attempt_compilation` and panic on any returned error. -/
def compile (cfg : C3FFI) (name : String) (env : Env) (spawn : SpawnOutcome) : AttemptResult :=
  let r := attemptCompilation cfg name env spawn
  match r.outcome with
  | .err _ => { r with outcome := .panicked }
  | _ => r

/-! ### Lemmas about the accumulation pattern -/

theorem mem_addUnique_self {α : Type} [DecidableEq α] (xs : List α) (x : α) :
    x ∈ addUnique xs x := by
  unfold addUnique
  split
  · assumption
  · simp

theorem mem_addUnique_of_mem {α : Type} [DecidableEq α] {xs : List α} {y : α} (x : α)
    (h : y ∈ xs) : y ∈ addUnique xs x := by
  unfold addUnique
  split <;> simp [h]

theorem addUnique_of_mem {α : Type} [DecidableEq α] {xs : List α} {x : α} (h : x ∈ xs) :
    addUnique xs x = xs := by
  simp [addUnique, h]

theorem addUnique_idem {α : Type} [DecidableEq α] (xs : List α) (x : α) :
    addUnique (addUnique xs x) x = addUnique xs x :=
  addUnique_of_mem (mem_addUnique_self xs x)

theorem addUnique_append {α : Type} [DecidableEq α] (xs : List α) (x : α) :
    ∃ t, addUnique xs x = xs ++ t := by
  unfold addUnique
  split
  · exact ⟨[], by simp⟩
  · exact ⟨[x], rfl⟩

/-- Number of occurrences of `x` in a list. -/
def countOcc {α : Type} [DecidableEq α] (x : α) : List α → Nat
  | [] => 0
  | y :: ys => (if y = x then 1 else 0) + countOcc x ys

theorem countOcc_append {α : Type} [DecidableEq α] (x : α) (l1 l2 : List α) :
    countOcc x (l1 ++ l2) = countOcc x l1 + countOcc x l2 := by
  induction l1 with
  | nil => simp [countOcc]
  | cons y ys ih => simp [countOcc, ih]; omega

theorem countOcc_eq_zero {α : Type} [DecidableEq α] {x : α} {l : List α} (h : x ∉ l) :
    countOcc x l = 0 := by
  induction l with
  | nil => rfl
  | cons y ys ih =>
    have hy : y ≠ x := fun e => h (by simp [e])
    simp [countOcc, hy, ih (fun hm => h (by simp [hm]))]

theorem countOcc_nodup_mem {α : Type} [DecidableEq α] {x : α} {l : List α}
    (hd : l.Nodup) (h : x ∈ l) : countOcc x l = 1 := by
  induction l with
  | nil => cases h
  | cons y ys ih =>
    obtain ⟨hy, hys⟩ := List.nodup_cons.mp hd
    rcases List.mem_cons.mp h with h | h
    · subst h
      simp [countOcc, countOcc_eq_zero hy]
    · have hyx : y ≠ x := fun e => hy (e ▸ h)
      simp [countOcc, hyx, ih hys h]

theorem count_addUnique {α : Type} [DecidableEq α] {xs : List α} (x : α) (h : xs.Nodup) :
    countOcc x (addUnique xs x) = 1 := by
  unfold addUnique
  split
  · exact countOcc_nodup_mem h (by assumption)
  · rw [countOcc_append, countOcc_eq_zero (by assumption)]
    simp [countOcc]

theorem addUnique_nodup {α : Type} [DecidableEq α] {xs : List α} (x : α) (h : xs.Nodup) :
    (addUnique xs x).Nodup := by
  unfold addUnique
  split
  · exact h
  · simp [List.nodup_append, h]
    assumption

theorem mem_foldl_addUnique_of_mem {α : Type} [DecidableEq α] {y : α} (l : List α) :
    ∀ xs : List α, y ∈ xs → y ∈ l.foldl addUnique xs := by
  induction l with
  | nil => intro xs h; exact h
  | cons x l ih => intro xs h; exact ih _ (mem_addUnique_of_mem x h)

theorem mem_foldl_addUnique_self {α : Type} [DecidableEq α] {y : α} {l : List α}
    (h : y ∈ l) : ∀ xs : List α, y ∈ l.foldl addUnique xs := by
  induction l with
  | nil => cases h
  | cons x l ih =>
    intro xs
    rcases List.mem_cons.mp h with h | h
    · exact mem_foldl_addUnique_of_mem l _ (h ▸ mem_addUnique_self xs x)
    · exact ih h _

theorem foldl_addUnique_of_subset {α : Type} [DecidableEq α] {l : List α} :
    ∀ {xs : List α}, (∀ a ∈ l, a ∈ xs) → l.foldl addUnique xs = xs := by
  induction l with
  | nil => intro xs _; rfl
  | cons x l ih =>
    intro xs h
    have hx : addUnique xs x = xs := addUnique_of_mem (h x (by simp))
    simp only [List.foldl_cons, hx]
    exact ih (fun a ha => h a (by simp [ha]))

theorem foldl_addUnique_idem {α : Type} [DecidableEq α] (l xs : List α) :
    l.foldl addUnique (l.foldl addUnique xs) = l.foldl addUnique xs :=
  foldl_addUnique_of_subset (fun _ ha => mem_foldl_addUnique_self ha xs)

/-! ### The plural accumulation methods as field updates -/

theorem addFiles_eq (cfg : C3FFI) (l : List PathBuf) :
    cfg.addFiles l = { cfg with files := l.foldl addUnique cfg.files } := by
  induction l generalizing cfg with
  | nil => rfl
  | cons x l ih => exact ih (cfg.file x)

theorem addFeatures_eq (cfg : C3FFI) (l : List String) :
    cfg.addFeatures l = { cfg with features := l.foldl addUnique cfg.features } := by
  induction l generalizing cfg with
  | nil => rfl
  | cons x l ih => exact ih (cfg.feature x)

theorem addArgs_eq (cfg : C3FFI) (l : List String) :
    cfg.addArgs l = { cfg with args := l.foldl addUnique cfg.args } := by
  induction l generalizing cfg with
  | nil => rfl
  | cons x l ih => exact ih (cfg.arg x)

theorem addLinkerArguments_eq (cfg : C3FFI) (l : List String) :
    cfg.addLinkerArguments l =
      { cfg with linker_arguments := l.foldl addUnique cfg.linker_arguments } := by
  induction l generalizing cfg with
  | nil => rfl
  | cons x l ih => exact ih (cfg.linker_argument x)

theorem addEnvironmentVariables_eq (cfg : C3FFI) (l : List (String × String)) :
    cfg.addEnvironmentVariables l =
      { cfg with environment_variables := l.foldl addUnique cfg.environment_variables } := by
  induction l generalizing cfg with
  | nil => rfl
  | cons x l ih => exact ih (cfg.environment_variable x)

theorem addCompiledLibDirs_eq (cfg : C3FFI) (l : List PathBuf) :
    cfg.addCompiledLibDirs l =
      { cfg with compiled_lib_dirs := l.foldl addUnique cfg.compiled_lib_dirs } := by
  induction l generalizing cfg with
  | nil => rfl
  | cons x l ih => exact ih (cfg.compiled_lib_dir x)

theorem addCompiledLibs_eq (cfg : C3FFI) (l : List PathBuf) :
    cfg.addCompiledLibs l = { cfg with compiled_libs := l.foldl addUnique cfg.compiled_libs } := by
  induction l generalizing cfg with
  | nil => rfl
  | cons x l ih => exact ih (cfg.compiled_lib x)

theorem addC3LibDirs_eq (cfg : C3FFI) (l : List PathBuf) :
    cfg.addC3LibDirs l = { cfg with c3_lib_dirs := l.foldl addUnique cfg.c3_lib_dirs } := by
  induction l generalizing cfg with
  | nil => rfl
  | cons x l ih => exact ih (cfg.c3_lib_dir x)

theorem addC3Libs_eq (cfg : C3FFI) (l : List PathBuf) :
    cfg.addC3Libs l = { cfg with c3_libs := l.foldl addUnique cfg.c3_libs } := by
  induction l generalizing cfg with
  | nil => rfl
  | cons x l ih => exact ih (cfg.c3_lib x)

/-! ### Claim C4: idempotent, append-only accumulation -/

/-- The accumulation-semantics property of claim C4, for one configuration
and one item of each kind: every singular accumulation method is
idempotent under an exact duplicate, leaves exactly one occurrence of the
item in its collection, and only ever appends (so insertion order of
distinct items is preserved and nothing is removed); every plural method
is idempotent under repeating the same batch. -/
def C4Prop (cfg : C3FFI) (p : PathBuf) (s : String) (kv : String × String)
    (lp : List PathBuf) (ls : List String) (lkv : List (String × String)) : Prop :=
  ((cfg.file p).file p = cfg.file p ∧
    countOcc p (cfg.file p).files = 1 ∧
    (∃ t, (cfg.file p).files = cfg.files ++ t)) ∧
  ((cfg.feature s).feature s = cfg.feature s ∧
    countOcc s (cfg.feature s).features = 1 ∧
    (∃ t, (cfg.feature s).features = cfg.features ++ t)) ∧
  ((cfg.arg s).arg s = cfg.arg s ∧
    countOcc s (cfg.arg s).args = 1 ∧
    (∃ t, (cfg.arg s).args = cfg.args ++ t)) ∧
  ((cfg.linker_argument s).linker_argument s = cfg.linker_argument s ∧
    countOcc s (cfg.linker_argument s).linker_arguments = 1 ∧
    (∃ t, (cfg.linker_argument s).linker_arguments = cfg.linker_arguments ++ t)) ∧
  ((cfg.environment_variable kv).environment_variable kv = cfg.environment_variable kv ∧
    countOcc kv (cfg.environment_variable kv).environment_variables = 1 ∧
    (∃ t, (cfg.environment_variable kv).environment_variables = cfg.environment_variables ++ t)) ∧
  ((cfg.compiled_lib_dir p).compiled_lib_dir p = cfg.compiled_lib_dir p ∧
    countOcc p (cfg.compiled_lib_dir p).compiled_lib_dirs = 1 ∧
    (∃ t, (cfg.compiled_lib_dir p).compiled_lib_dirs = cfg.compiled_lib_dirs ++ t)) ∧
  ((cfg.compiled_lib p).compiled_lib p = cfg.compiled_lib p ∧
    countOcc p (cfg.compiled_lib p).compiled_libs = 1 ∧
    (∃ t, (cfg.compiled_lib p).compiled_libs = cfg.compiled_libs ++ t)) ∧
  ((cfg.c3_lib_dir p).c3_lib_dir p = cfg.c3_lib_dir p ∧
    countOcc p (cfg.c3_lib_dir p).c3_lib_dirs = 1 ∧
    (∃ t, (cfg.c3_lib_dir p).c3_lib_dirs = cfg.c3_lib_dirs ++ t)) ∧
  ((cfg.c3_lib p).c3_lib p = cfg.c3_lib p ∧
    countOcc p (cfg.c3_lib p).c3_libs = 1 ∧
    (∃ t, (cfg.c3_lib p).c3_libs = cfg.c3_libs ++ t)) ∧
  (cfg.addFiles lp).addFiles lp = cfg.addFiles lp ∧
  (cfg.addFeatures ls).addFeatures ls = cfg.addFeatures ls ∧
  (cfg.addArgs ls).addArgs ls = cfg.addArgs ls ∧
  (cfg.addLinkerArguments ls).addLinkerArguments ls = cfg.addLinkerArguments ls ∧
  (cfg.addEnvironmentVariables lkv).addEnvironmentVariables lkv = cfg.addEnvironmentVariables lkv ∧
  (cfg.addCompiledLibDirs lp).addCompiledLibDirs lp = cfg.addCompiledLibDirs lp ∧
  (cfg.addCompiledLibs lp).addCompiledLibs lp = cfg.addCompiledLibs lp ∧
  (cfg.addC3LibDirs lp).addC3LibDirs lp = cfg.addC3LibDirs lp ∧
  (cfg.addC3Libs lp).addC3Libs lp = cfg.addC3Libs lp

/-- Claim C4: every accumulation operation of the configuration builder
(file, feature, arg, linker_argument, environment_variable,
compiled_lib_dir, compiled_lib, c3_lib_dir, c3_lib, and the plural
variants) is idempotent under exact-duplicate input, leaves exactly one
occurrence of the added item in its collection, preserves insertion order
of distinct items, and never removes an element — for every configuration
whose collections are duplicate-free, as every configuration reachable
through the builder is. -/
theorem c4_accumulation_idempotent (cfg : C3FFI) (p : PathBuf) (s : String)
    (kv : String × String) (lp : List PathBuf) (ls : List String)
    (lkv : List (String × String)) (h : cfg.WellFormed) : C4Prop cfg p s kv lp ls lkv := by
  obtain ⟨h1, h2, h3, h4, h5, h6, h7, h8, h9⟩ := h
  refine ⟨⟨?_, ?_, ?_⟩, ⟨?_, ?_, ?_⟩, ⟨?_, ?_, ?_⟩, ⟨?_, ?_, ?_⟩, ⟨?_, ?_, ?_⟩,
    ⟨?_, ?_, ?_⟩, ⟨?_, ?_, ?_⟩, ⟨?_, ?_, ?_⟩, ⟨?_, ?_, ?_⟩, ?_, ?_, ?_, ?_, ?_, ?_, ?_, ?_, ?_⟩
  · simp [C3FFI.file, addUnique_idem]
  · exact count_addUnique p h1
  · exact addUnique_append cfg.files p
  · simp [C3FFI.feature, addUnique_idem]
  · exact count_addUnique s h2
  · exact addUnique_append cfg.features s
  · simp [C3FFI.arg, addUnique_idem]
  · exact count_addUnique s h3
  · exact addUnique_append cfg.args s
  · simp [C3FFI.linker_argument, addUnique_idem]
  · exact count_addUnique s h5
  · exact addUnique_append cfg.linker_arguments s
  · simp [C3FFI.environment_variable, addUnique_idem]
  · exact count_addUnique kv h4
  · exact addUnique_append cfg.environment_variables kv
  · simp [C3FFI.compiled_lib_dir, addUnique_idem]
  · exact count_addUnique p h6
  · exact addUnique_append cfg.compiled_lib_dirs p
  · simp [C3FFI.compiled_lib, addUnique_idem]
  · exact count_addUnique p h7
  · exact addUnique_append cfg.compiled_libs p
  · simp [C3FFI.c3_lib_dir, addUnique_idem]
  · exact count_addUnique p h8
  · exact addUnique_append cfg.c3_lib_dirs p
  · simp [C3FFI.c3_lib, addUnique_idem]
  · exact count_addUnique p h9
  · exact addUnique_append cfg.c3_libs p
  · simp [addFiles_eq, foldl_addUnique_idem]
  · simp [addFeatures_eq, foldl_addUnique_idem]
  · simp [addArgs_eq, foldl_addUnique_idem]
  · simp [addLinkerArguments_eq, foldl_addUnique_idem]
  · simp [addEnvironmentVariables_eq, foldl_addUnique_idem]
  · simp [addCompiledLibDirs_eq, foldl_addUnique_idem]
  · simp [addCompiledLibs_eq, foldl_addUnique_idem]
  · simp [addC3LibDirs_eq, foldl_addUnique_idem]
  · simp [addC3Libs_eq, foldl_addUnique_idem]

/-- Witness for C4 at a concrete configuration and concrete items. -/
theorem c4_accumulation_idempotent_witness :
    C3FFI.new.WellFormed ∧
      C4Prop C3FFI.new (.utf8 "a.c3") "feat" ("K", "V") [.utf8 "a.c3"] ["feat"] [("K", "V")] :=
  ⟨by simp [C3FFI.WellFormed, C3FFI.new],
    c4_accumulation_idempotent C3FFI.new (.utf8 "a.c3") "feat" ("K", "V") [.utf8 "a.c3"]
      ["feat"] [("K", "V")] (by simp [C3FFI.WellFormed, C3FFI.new])⟩

/-! ### The rendered argument list, decomposed into its flag groups -/

/-- One repeated-flag group: `flag x1 flag x2 ...` in list order. -/
def flagPairs (flag : String) : List String → List String
  | [] => []
  | x :: xs => flag :: x :: flagPairs flag xs

/-- All paths of a list rendered with `to_str`, or `none` if any path is
not valid text. -/
def pathStrs : List PathBuf → Option (List String)
  | [] => some []
  | p :: ps => do
    let s ← pathToStr p
    let ss ← pathStrs ps
    pure (s :: ss)

theorem foldl_append_pair (flag : String) (l : List String) :
    ∀ acc : List String, l.foldl (fun a x => a ++ [flag, x]) acc = acc ++ flagPairs flag l := by
  induction l with
  | nil => intro acc; simp [flagPairs]
  | cons x xs ih =>
    intro acc
    simp only [List.foldl_cons, ih, flagPairs]
    simp

theorem foldl_append_single (l : List String) :
    ∀ acc : List String, l.foldl (fun a s => a ++ [s]) acc = acc ++ l := by
  induction l with
  | nil => intro acc; simp
  | cons x xs ih =>
    intro acc
    simp only [List.foldl_cons, ih]
    simp

theorem foldlM_path_eq (g : String → List String) (l : List PathBuf) :
    ∀ acc : List String,
      (l.foldlM (fun a d => (pathToStr d).map (fun s => a ++ g s)) acc : Option (List String)) =
        (pathStrs l).map (fun ys => acc ++ ys.foldr (fun s r => g s ++ r) []) := by
  induction l with
  | nil => intro acc; simp [pathStrs, List.foldlM]
  | cons p ps ih =>
    intro acc
    cases hp : pathToStr p with
    | none => simp [pathStrs, List.foldlM, hp]
    | some s =>
      cases hps : pathStrs ps with
      | none =>
        simp [pathStrs, List.foldlM, hp, hps]
        simpa [hps] using ih (acc ++ g s)
      | some ys =>
        simp [pathStrs, List.foldlM, hp, hps, Option.bind]
        simpa [hps, List.append_assoc] using ih (acc ++ g s)

theorem foldr_flagPairs (flag : String) (ys : List String) :
    ys.foldr (fun s r => flag :: s :: r) [] = flagPairs flag ys := by
  induction ys with
  | nil => rfl
  | cons y ys ih => simp [flagPairs, ih]

theorem foldr_cons_nil (ys : List String) : ys.foldr (fun s r => s :: r) [] = ys := by
  induction ys with
  | nil => rfl
  | cons y ys ih => simp [ih]

/-- The success shape of the translation: when every path of the
configuration is valid text, the argument list is exactly the fixed
header followed by the flag groups, one kind after the other. -/
theorem render_decomp (cfg : C3FFI) (name outDir c3target : String)
    (cds cls c3ds c3ls fs : List String)
    (h1 : pathStrs cfg.compiled_lib_dirs = some cds)
    (h2 : pathStrs cfg.compiled_libs = some cls)
    (h3 : pathStrs cfg.c3_lib_dirs = some c3ds)
    (h4 : pathStrs cfg.c3_libs = some c3ls)
    (h5 : pathStrs cfg.files = some fs) :
    renderInvocation cfg name outDir c3target = some
      ([linkCommand cfg.linking_mode, debugFlagStr cfg.debug_info,
        optFlagStr cfg.optimization_level, "--output-dir", outDir, "-o", "lib" ++ name,
        "--target", c3target] ++
       flagPairs "-D" cfg.features ++ flagPairs "-z" cfg.linker_arguments ++
       flagPairs "-L" cds ++ flagPairs "-l" cls ++ flagPairs "--libdir" c3ds ++
       flagPairs "--lib" c3ls ++ fs ++ cfg.args) := by
  simp [renderInvocation, translateArgs, foldl_append_pair, foldl_append_single,
    foldlM_path_eq, h1, h2, h3, h4, h5, foldr_flagPairs, foldr_cons_nil, List.append_assoc]

/-- If any of the path collections contains a non-text path, the
translation step dies. -/
theorem render_none (cfg : C3FFI) (name outDir c3target : String)
    (h : pathStrs cfg.compiled_lib_dirs = none ∨ pathStrs cfg.compiled_libs = none ∨
      pathStrs cfg.c3_lib_dirs = none ∨ pathStrs cfg.c3_libs = none ∨
      pathStrs cfg.files = none) :
    renderInvocation cfg name outDir c3target = none := by
  rcases h with h | h | h | h | h <;>
    simp [renderInvocation, translateArgs, foldl_append_pair, foldl_append_single,
      foldlM_path_eq, h]

theorem pathStrs_none_of_mem {p : PathBuf} {l : List PathBuf}
    (hmem : p ∈ l) (hbad : pathToStr p = none) : pathStrs l = none := by
  induction l with
  | nil => cases hmem
  | cons q qs ih =>
    rcases List.mem_cons.mp hmem with h | h
    · simp [pathStrs, h ▸ hbad]
    · cases hq : pathToStr q <;> simp [pathStrs, hq, ih h]

/-! ### Claim C5: fixed cross-kind ordering of the rendered arguments -/

/-- Claim C5: for every configuration (hence after any interleaving of
accumulation calls, which only ever build such configurations), the
rendered argument list groups the kinds in the fixed order
`-D` features, `-z` linker arguments, `-L` compiled-library directories,
`-l` compiled libraries, `--libdir` C3-library directories, `--lib`
C3 libraries, source files, raw passthrough arguments — each group in the
insertion order of its collection. -/
theorem c5_render_order (cfg : C3FFI) (name outDir c3target : String)
    (cds cls c3ds c3ls fs : List String)
    (h1 : pathStrs cfg.compiled_lib_dirs = some cds)
    (h2 : pathStrs cfg.compiled_libs = some cls)
    (h3 : pathStrs cfg.c3_lib_dirs = some c3ds)
    (h4 : pathStrs cfg.c3_libs = some c3ls)
    (h5 : pathStrs cfg.files = some fs) :
    renderInvocation cfg name outDir c3target = some
      ([linkCommand cfg.linking_mode, debugFlagStr cfg.debug_info,
        optFlagStr cfg.optimization_level, "--output-dir", outDir, "-o", "lib" ++ name,
        "--target", c3target] ++
       flagPairs "-D" cfg.features ++ flagPairs "-z" cfg.linker_arguments ++
       flagPairs "-L" cds ++ flagPairs "-l" cls ++ flagPairs "--libdir" c3ds ++
       flagPairs "--lib" c3ls ++ fs ++ cfg.args) :=
  render_decomp cfg name outDir c3target cds cls c3ds c3ls fs h1 h2 h3 h4 h5

/-- Configuration for the C5 witness, built by accumulation calls that
interleave the kinds: raw arg, compiled lib, feature, file, linker
argument, C3-lib dir, compiled-lib dir, C3 lib, feature again. -/
def c5cfg : C3FFI :=
  ((((((((C3FFI.new.arg "--raw").compiled_lib (.utf8 "m.a")).feature "FOO").file
    (.utf8 "a.c3")).linker_argument "-EB").c3_lib_dir (.utf8 "cd")).compiled_lib_dir
    (.utf8 "L1")).c3_lib (.utf8 "cl")).feature "BAR"

/-- Witness for C5: despite the interleaved accumulation order of
`c5cfg`, the rendered list is grouped by kind in the fixed order. -/
theorem c5_render_order_witness :
    pathStrs c5cfg.compiled_lib_dirs = some ["L1"] ∧
    pathStrs c5cfg.compiled_libs = some ["m.a"] ∧
    pathStrs c5cfg.c3_lib_dirs = some ["cd"] ∧
    pathStrs c5cfg.c3_libs = some ["cl"] ∧
    pathStrs c5cfg.files = some ["a.c3"] ∧
    renderInvocation c5cfg "n" "o" "t" = some
      ["static-lib", "-g", "-O0", "--output-dir", "o", "-o", "libn", "--target", "t",
       "-D", "FOO", "-D", "BAR", "-z", "-EB", "-L", "L1", "-l", "m.a",
       "--libdir", "cd", "--lib", "cl", "a.c3", "--raw"] :=
  ⟨by decide, by decide, by decide, by decide, by decide,
    (c5_render_order c5cfg "n" "o" "t" ["L1"] ["m.a"] ["cd"] ["cl"] ["a.c3"]
      (by decide) (by decide) (by decide) (by decide) (by decide)).trans (by decide)⟩

/-! ### Claim C6: the fixed command tokens -/

/-- The token property of claim C6 for a rendered list `l`: positions 0-2
hold the link-mode command, the debug flag and the optimization flag (so
the debug flag precedes the optimization flag), position 5-6 hold `-o`
and the `lib`-prefixed artifact name; and the token values are the ones
the claim names. -/
def C6Prop (cfg : C3FFI) (name : String) (l : List String) : Prop :=
  l[0]? = some (linkCommand cfg.linking_mode) ∧
  l[1]? = some (debugFlagStr cfg.debug_info) ∧
  l[2]? = some (optFlagStr cfg.optimization_level) ∧
  l[5]? = some "-o" ∧
  l[6]? = some ("lib" ++ name) ∧
  linkCommand .Static = "static-lib" ∧ linkCommand .Dynamic = "dynamic-lib" ∧
  debugFlagStr true = "-g" ∧ debugFlagStr false = "-g0" ∧
  optFlagStr .O2 = "-O2" ∧ optFlagStr .Os = "-Os"

/-- Claim C6: whatever the configuration, a successfully rendered argument
list starts with the link-mode command (`static-lib`/`dynamic-lib`), then
the debug flag (`-g`/`-g0`), then the optimization flag (`-O2`, `-Os`,
...), and the artifact name after `-o` is `lib` followed by the base
name. -/
theorem c6_flag_tokens (cfg : C3FFI) (name outDir c3target : String) (l : List String)
    (h : renderInvocation cfg name outDir c3target = some l) : C6Prop cfg name l := by
  cases h1 : pathStrs cfg.compiled_lib_dirs with
  | none => rw [render_none cfg name outDir c3target (Or.inl h1)] at h; cases h
  | some cds =>
  cases h2 : pathStrs cfg.compiled_libs with
  | none => rw [render_none cfg name outDir c3target (Or.inr (Or.inl h2))] at h; cases h
  | some cls =>
  cases h3 : pathStrs cfg.c3_lib_dirs with
  | none => rw [render_none cfg name outDir c3target (Or.inr (Or.inr (Or.inl h3)))] at h; cases h
  | some c3ds =>
  cases h4 : pathStrs cfg.c3_libs with
  | none =>
    rw [render_none cfg name outDir c3target (Or.inr (Or.inr (Or.inr (Or.inl h4))))] at h
    cases h
  | some c3ls =>
  cases h5 : pathStrs cfg.files with
  | none =>
    rw [render_none cfg name outDir c3target (Or.inr (Or.inr (Or.inr (Or.inr h5))))] at h
    cases h
  | some fs =>
    rw [render_decomp cfg name outDir c3target cds cls c3ds c3ls fs h1 h2 h3 h4 h5] at h
    injection h with h
    subst h
    refine ⟨?_, ?_, ?_, ?_, ?_, rfl, rfl, rfl, rfl, rfl, rfl⟩ <;> simp

/-- Witness for C6 at the default configuration. -/
theorem c6_flag_tokens_witness :
    renderInvocation C3FFI.new "n" "o" "t" = some
      ["static-lib", "-g", "-O0", "--output-dir", "o", "-o", "libn", "--target", "t"] ∧
    C6Prop C3FFI.new "n"
      ["static-lib", "-g", "-O0", "--output-dir", "o", "-o", "libn", "--target", "t"] :=
  ⟨by decide,
    c6_flag_tokens C3FFI.new "n" "o" "t"
      ["static-lib", "-g", "-O0", "--output-dir", "o", "-o", "libn", "--target", "t"]
      (by decide)⟩

/-! ### Claim C8: non-text paths make the translation fail -/

/-- Claim C8: a configuration holding a non-text path among its source
files, library directories or library entries never renders an argument
list; inside `attempt_compilation` (environment present) this surfaces as
the translation-step failure — the call does not complete successfully
and emits nothing. -/
theorem c8_invalid_path_fails (cfg : C3FFI) (name outDir c3target d t : String)
    (spawn : SpawnOutcome) (p : PathBuf)
    (hmem : p ∈ cfg.files ∨ p ∈ cfg.compiled_lib_dirs ∨ p ∈ cfg.compiled_libs ∨
      p ∈ cfg.c3_lib_dirs ∨ p ∈ cfg.c3_libs)
    (hbad : pathToStr p = none) :
    renderInvocation cfg name outDir c3target = none ∧
    (attemptCompilation cfg name ⟨some d, some t⟩ spawn).outcome = .panicked ∧
    (attemptCompilation cfg name ⟨some d, some t⟩ spawn).directives = [] := by
  have hrender : ∀ od tg : String, renderInvocation cfg name od tg = none := by
    intro od tg
    apply render_none
    rcases hmem with h | h | h | h | h
    · exact Or.inr (Or.inr (Or.inr (Or.inr (pathStrs_none_of_mem h hbad))))
    · exact Or.inl (pathStrs_none_of_mem h hbad)
    · exact Or.inr (Or.inl (pathStrs_none_of_mem h hbad))
    · exact Or.inr (Or.inr (Or.inl (pathStrs_none_of_mem h hbad)))
    · exact Or.inr (Or.inr (Or.inr (Or.inl (pathStrs_none_of_mem h hbad))))
  refine ⟨hrender outDir c3target, ?_, ?_⟩ <;>
    · simp only [attemptCompilation]
      cases hn : normalizeTarget t <;> simp [hn, hrender]

/-! ### Claim C7: missing OUT_DIR or TARGET aborts before anything happens -/

/-- Claim C7: if OUT_DIR or TARGET is absent from the build environment,
`attempt_compilation` returns the environment-variable error at once: no
subprocess is launched and no metadata directive is emitted. -/
theorem c7_missing_env (cfg : C3FFI) (name : String) (env : Env) (spawn : SpawnOutcome)
    (h : env.out_dir = none ∨ env.target = none) :
    (attemptCompilation cfg name env spawn).launched = false ∧
    (attemptCompilation cfg name env spawn).directives = [] ∧
    ((attemptCompilation cfg name env spawn).outcome = .err (.envVar "OUT_DIR") ∨
      (attemptCompilation cfg name env spawn).outcome = .err (.envVar "TARGET")) := by
  obtain ⟨od, tg⟩ := env
  rcases h with h | h
  · cases h
    simp [attemptCompilation]
  · cases h
    cases od <;> simp [attemptCompilation]

/-- Witness for C7: TARGET absent. -/
theorem c7_missing_env_witness :
    ((Env.mk (some "/out") none).out_dir = none ∨ (Env.mk (some "/out") none).target = none) ∧
    (attemptCompilation C3FFI.new "thing" (Env.mk (some "/out") none)
        (.completed 0)).launched = false ∧
    (attemptCompilation C3FFI.new "thing" (Env.mk (some "/out") none)
        (.completed 0)).directives = [] ∧
    ((attemptCompilation C3FFI.new "thing" (Env.mk (some "/out") none)
        (.completed 0)).outcome = .err (.envVar "OUT_DIR") ∨
      (attemptCompilation C3FFI.new "thing" (Env.mk (some "/out") none)
        (.completed 0)).outcome = .err (.envVar "TARGET")) :=
  ⟨Or.inr rfl, c7_missing_env C3FFI.new "thing" (Env.mk (some "/out") none)
    (.completed 0) (Or.inr rfl)⟩

/-! ### Claim C9: the call never mutates the configuration -/

theorem attempt_cfg_unchanged (cfg : C3FFI) (name : String) (env : Env)
    (spawn : SpawnOutcome) : (attemptCompilation cfg name env spawn).cfg' = cfg := by
  obtain ⟨od, tg⟩ := env
  cases od <;> cases tg <;> simp only [attemptCompilation] <;> (repeat' split) <;> rfl

/-- Claim C9: `attempt_compilation` (and therefore `compile`) leaves every
field of the configuration unchanged, whichever way the call ends. -/
theorem c9_config_frame (cfg : C3FFI) (name : String) (env : Env) (spawn : SpawnOutcome) :
    (attemptCompilation cfg name env spawn).cfg' = cfg ∧
    (compile cfg name env spawn).cfg' = cfg := by
  refine ⟨attempt_cfg_unchanged cfg name env spawn, ?_⟩
  rcases ho : (attemptCompilation cfg name env spawn).outcome <;>
    simp [compile, ho, attempt_cfg_unchanged]

/-! ### Claim C10: the two success directives -/

/-- Claim C10: whenever `attempt_compilation` reaches its success path,
the directives printed are exactly the native link-search line for the
output directory followed by the static-library link line with the bare
base name — for every configuration, the Dynamic linking mode included. -/
theorem c10_success_directives (cfg : C3FFI) (name d : String) (tg : Option String)
    (spawn : SpawnOutcome)
    (h : (attemptCompilation cfg name ⟨some d, tg⟩ spawn).outcome = .ok) :
    (attemptCompilation cfg name ⟨some d, tg⟩ spawn).directives =
      ["cargo:rustc-link-search=native=" ++ d, "cargo:rustc-link-lib=static=" ++ name] := by
  cases tg with
  | none => simp [attemptCompilation] at h
  | some t =>
    simp only [attemptCompilation] at h ⊢
    cases hn : normalizeTarget t with
    | none => simp [hn] at h
    | some c3t =>
      simp only [hn] at h ⊢
      cases hr : renderInvocation cfg name d c3t with
      | none => simp [hr] at h
      | some l =>
        simp only [hr] at h ⊢
        cases spawn with
        | spawnFailure => simp at h
        | completed code => rfl

/-- Witness for C10: a Dynamic-mode configuration reaching the success
path still gets the `static=` link directive with the bare name. -/
theorem c10_success_directives_witness :
    (attemptCompilation (C3FFI.new.set_linking_mode .Dynamic) "thing"
        ⟨some "/out", some "x86_64-unknown-linux-gnu"⟩ (.completed 0)).outcome = .ok ∧
    (attemptCompilation (C3FFI.new.set_linking_mode .Dynamic) "thing"
        ⟨some "/out", some "x86_64-unknown-linux-gnu"⟩ (.completed 0)).directives =
      ["cargo:rustc-link-search=native=/out", "cargo:rustc-link-lib=static=thing"] :=
  ⟨by decide,
    c10_success_directives (C3FFI.new.set_linking_mode .Dynamic) "thing" "/out"
      (some "x86_64-unknown-linux-gnu") (.completed 0) (by decide)⟩

/-! ### Claim C1: subprocess failure handling -/

/-- Claim C1 evaluated on the code: on a spawn failure the call indeed
returns an error and emits nothing, but on a non-zero exit status of the
child (exit code 1 here) the call still emits both metadata directives
and returns success, because the source never inspects the exit status of
`Command::output()`.  This contradicts the claim (and the function's own
documentation, which promises an error whenever compilation fails). -/
theorem c1_nonzero_exit_divergence :
    (attemptCompilation C3FFI.new "thing"
        ⟨some "/out", some "x86_64-unknown-linux-gnu"⟩ (.completed 1)).outcome = .ok ∧
    (attemptCompilation C3FFI.new "thing"
        ⟨some "/out", some "x86_64-unknown-linux-gnu"⟩ (.completed 1)).directives =
      ["cargo:rustc-link-search=native=/out", "cargo:rustc-link-lib=static=thing"] ∧
    (attemptCompilation C3FFI.new "thing"
        ⟨some "/out", some "x86_64-unknown-linux-gnu"⟩ .spawnFailure).outcome =
      .err .spawn ∧
    (attemptCompilation C3FFI.new "thing"
        ⟨some "/out", some "x86_64-unknown-linux-gnu"⟩ .spawnFailure).directives = [] := by
  refine ⟨by decide, by decide, by decide, by decide⟩

/-! ### Claims C2 and C3: the target-triple normalizer -/

/-- Modelled from the spec's words (claim C3, spec section 4.2), for the
refinement comparison with `normalizeTarget`: given the dash-separated
fields of the target identifier, take architecture from field 0; with
exactly four fields take the OS from index 2 and the toolchain from
index 3, with three fields the OS from index 1 and the toolchain from
index 2; case-insensitively rename OS "windows" to "mingw" when the
toolchain is "gnu" or "gnullvm" and architecture "x86_64" to "x64"; emit
"{os}-{architecture}". -/
def specNormalize (fields : List (List Char)) : Option String :=
  match fields with
  | [a, o, t] =>
    some (String.mk (specRenameOs o t ++ '-' :: specRenameArch a))
  | [a, _, o, t] =>
    some (String.mk (specRenameOs o t ++ '-' :: specRenameArch a))
  | _ => none
where
  /-- OS renaming rule of the spec. -/
  specRenameOs (os toolchain : List Char) : List Char :=
    if eqIgnoreAsciiCase os "windows".data &&
        (eqIgnoreAsciiCase toolchain "gnu".data ||
          eqIgnoreAsciiCase toolchain "gnullvm".data) then
      "mingw".data
    else os
  /-- Architecture renaming rule of the spec. -/
  specRenameArch (a : List Char) : List Char :=
    if eqIgnoreAsciiCase a "x86_64".data then "x64".data else a

theorem length_eq_four {α : Type} {l : List α} (h : l.length = 4) :
    ∃ a b c d, l = [a, b, c, d] := by
  match l, h with
  | [a, b, c, d], _ => exact ⟨a, b, c, d, rfl⟩

/-- Claim C3: on every target identifier that splits on `-` into three or
four fields, the source's normalizer agrees with the positional algorithm
the spec describes (architecture from field 0; OS/toolchain from indices
2/3 with four fields, else 1/2; case-insensitive renaming of
windows+gnu/gnullvm to mingw and of x86_64 to x64; output
"{os}-{architecture}"). -/
theorem c3_normalizer_spec (target : String)
    (h : (splitOnChar '-' target.data).length = 3 ∨
      (splitOnChar '-' target.data).length = 4) :
    normalizeTarget target = specNormalize (splitOnChar '-' target.data) := by
  rcases h with h | h
  · obtain ⟨a, o, t, hsplit⟩ := List.length_eq_three.mp h
    simp [normalizeTarget, specNormalize, hsplit, specNormalize.specRenameOs,
      specNormalize.specRenameArch]
  · obtain ⟨a, v, o, t, hsplit⟩ := length_eq_four h
    simp [normalizeTarget, specNormalize, hsplit, specNormalize.specRenameOs,
      specNormalize.specRenameArch]

/-- Witness for C3 at a four-field triple. -/
theorem c3_normalizer_spec_witness :
    ((splitOnChar '-' "x86_64-unknown-linux-gnu".data).length = 3 ∨
      (splitOnChar '-' "x86_64-unknown-linux-gnu".data).length = 4) ∧
    normalizeTarget "x86_64-unknown-linux-gnu" =
      specNormalize (splitOnChar '-' "x86_64-unknown-linux-gnu".data) :=
  ⟨Or.inr (by decide), c3_normalizer_spec "x86_64-unknown-linux-gnu" (Or.inr (by decide))⟩

/-- Counterexample to claim C2 as stated: the three-field triple
"aarch64-apple-darwin" is not normalized to "darwin-aarch64" — the source
takes the OS from index 1 of a three-field split, which here is the
vendor "apple". -/
theorem c2_counterexample :
    ¬ normalizeTarget "aarch64-apple-darwin" = some "darwin-aarch64" := by
  decide

/-- Claim C2 as amended: the first two mappings are as the claim states,
and the three-field input "aarch64-apple-darwin" maps to "apple-aarch64"
(index 1 of the split is "apple"), not "darwin-aarch64". -/
theorem c2_target_examples :
    normalizeTarget "x86_64-unknown-linux-gnu" = some "linux-x64" ∧
    normalizeTarget "x86_64-pc-windows-gnu" = some "mingw-x64" ∧
    normalizeTarget "aarch64-apple-darwin" = some "apple-aarch64" := by
  refine ⟨by decide, by decide, by decide⟩

/-- Witness for C8: a configuration whose file list holds a non-text
path. -/
theorem c8_invalid_path_fails_witness :
    (PathBuf.invalid [255] ∈ (C3FFI.new.file (.invalid [255])).files ∨
      PathBuf.invalid [255] ∈ (C3FFI.new.file (.invalid [255])).compiled_lib_dirs ∨
      PathBuf.invalid [255] ∈ (C3FFI.new.file (.invalid [255])).compiled_libs ∨
      PathBuf.invalid [255] ∈ (C3FFI.new.file (.invalid [255])).c3_lib_dirs ∨
      PathBuf.invalid [255] ∈ (C3FFI.new.file (.invalid [255])).c3_libs) ∧
    pathToStr (.invalid [255]) = none ∧
    (renderInvocation (C3FFI.new.file (.invalid [255])) "n" "o" "t" = none ∧
      (attemptCompilation (C3FFI.new.file (.invalid [255])) "n"
          ⟨some "/out", some "x86_64-unknown-linux-gnu"⟩ (.completed 0)).outcome = .panicked ∧
      (attemptCompilation (C3FFI.new.file (.invalid [255])) "n"
          ⟨some "/out", some "x86_64-unknown-linux-gnu"⟩ (.completed 0)).directives = []) :=
  ⟨Or.inl (by decide), rfl,
    c8_invalid_path_fails (C3FFI.new.file (.invalid [255])) "n" "o" "t" "/out"
      "x86_64-unknown-linux-gnu" (.completed 0) (.invalid [255]) (Or.inl (by decide)) rfl⟩
